import Mathlib

/-!
Shallow embedding of the iPXE TLS engine data model, from
src/src/include/ipxe/tls.h. The repository provides only this header; all
behavioural code (the record layer, handshake machine, key schedule and
transmit scheduler of tls.c) is absent, so those operations are modelled
from the specification, each marked `Modelled from the spec:` in its doc
comment.
-/

namespace Tls

/-! ## Protocol constants, from tls.h -/

/-- TLS version 1.0 (tls.h line 39) -/
def TLS_VERSION_TLS_1_0 : Nat := 0x0301

/-- TLS version 1.1 (tls.h line 42) -/
def TLS_VERSION_TLS_1_1 : Nat := 0x0302

/-- TLS version 1.2 (tls.h line 45) -/
def TLS_VERSION_TLS_1_2 : Nat := 0x0303

/-- Change cipher content type (tls.h line 48) -/
def TLS_TYPE_CHANGE_CIPHER : Nat := 20

/-- Alert content type (tls.h line 51) -/
def TLS_TYPE_ALERT : Nat := 21

/-- Handshake content type (tls.h line 54) -/
def TLS_TYPE_HANDSHAKE : Nat := 22

/-- Application data content type (tls.h line 57) -/
def TLS_TYPE_DATA : Nat := 23

/-- Handshake message type HelloRequest (tls.h line 60) -/
def TLS_HELLO_REQUEST : Nat := 0

/-- Handshake message type ClientHello (tls.h line 61) -/
def TLS_CLIENT_HELLO : Nat := 1

/-- Handshake message type ServerHello (tls.h line 62) -/
def TLS_SERVER_HELLO : Nat := 2

/-- Handshake message type Certificate (tls.h line 63) -/
def TLS_CERTIFICATE : Nat := 11

/-- Handshake message type ServerKeyExchange (tls.h line 64) -/
def TLS_SERVER_KEY_EXCHANGE : Nat := 12

/-- Handshake message type CertificateRequest (tls.h line 65) -/
def TLS_CERTIFICATE_REQUEST : Nat := 13

/-- Handshake message type ServerHelloDone (tls.h line 66) -/
def TLS_SERVER_HELLO_DONE : Nat := 14

/-- Handshake message type CertificateVerify (tls.h line 67) -/
def TLS_CERTIFICATE_VERIFY : Nat := 15

/-- Handshake message type ClientKeyExchange (tls.h line 68) -/
def TLS_CLIENT_KEY_EXCHANGE : Nat := 16

/-- Handshake message type Finished (tls.h line 69) -/
def TLS_FINISHED : Nat := 20

/-- TLS alert level warning (tls.h line 72) -/
def TLS_ALERT_WARNING : Nat := 1

/-- TLS alert level fatal (tls.h line 73) -/
def TLS_ALERT_FATAL : Nat := 2

/-- Cipher suite code TLS_RSA_WITH_NULL_MD5 (tls.h line 76) -/
def TLS_RSA_WITH_NULL_MD5 : Nat := 0x0001

/-- Cipher suite code TLS_RSA_WITH_NULL_SHA (tls.h line 77) -/
def TLS_RSA_WITH_NULL_SHA : Nat := 0x0002

/-- Cipher suite code TLS_RSA_WITH_AES_128_CBC_SHA (tls.h line 78) -/
def TLS_RSA_WITH_AES_128_CBC_SHA : Nat := 0x002f

/-- Cipher suite code TLS_RSA_WITH_AES_256_CBC_SHA (tls.h line 79) -/
def TLS_RSA_WITH_AES_256_CBC_SHA : Nat := 0x0035

/-- Cipher suite code TLS_RSA_WITH_AES_128_CBC_SHA256 (tls.h line 80) -/
def TLS_RSA_WITH_AES_128_CBC_SHA256 : Nat := 0x003c

/-- Cipher suite code TLS_RSA_WITH_AES_256_CBC_SHA256 (tls.h line 81) -/
def TLS_RSA_WITH_AES_256_CBC_SHA256 : Nat := 0x003d

/-- The record-layer content type codes declared in tls.h, in declaration order. -/
def tls_content_types : List Nat :=
  [TLS_TYPE_CHANGE_CIPHER, TLS_TYPE_ALERT, TLS_TYPE_HANDSHAKE, TLS_TYPE_DATA]

/-- The handshake message type codes declared in tls.h, in declaration order. -/
def tls_handshake_types : List Nat :=
  [TLS_HELLO_REQUEST, TLS_CLIENT_HELLO, TLS_SERVER_HELLO, TLS_CERTIFICATE,
   TLS_SERVER_KEY_EXCHANGE, TLS_CERTIFICATE_REQUEST, TLS_SERVER_HELLO_DONE,
   TLS_CERTIFICATE_VERIFY, TLS_CLIENT_KEY_EXCHANGE, TLS_FINISHED]

/-! ## C byte layout of the packed structures in tls.h -/

/-- Size in bytes of a uint8_t field. -/
def sizeof_uint8 : Nat := 1

/-- Size in bytes of a uint16_t field. -/
def sizeof_uint16 : Nat := 2

/-- Size in bytes of struct tls_header (tls.h lines 23 to 36): packed, so the
size is exactly the sum of the field sizes of type, version and length. -/
def sizeof_tls_header : Nat := sizeof_uint8 + sizeof_uint16 + sizeof_uint16

/-- Size in bytes of struct tls_pre_master_secret (tls.h lines 160 to 165):
packed, a uint16_t version followed by uint8_t random[46]. -/
def sizeof_tls_pre_master_secret : Nat := sizeof_uint16 + 46

/-- Size in bytes of the master_secret field of struct tls_session
(tls.h line 222): uint8_t master_secret[48]. -/
def tls_master_secret_size : Nat := 48

/-! ## RX state and TX pending flags, from tls.h -/

/-- TLS RX state machine state (tls.h lines 96 to 99). -/
inductive tls_rx_state where
  | TLS_RX_HEADER
  | TLS_RX_DATA
deriving DecidableEq, Repr

/-- TLS TX pending flag TLS_TX_CLIENT_HELLO (tls.h line 103) -/
def TLS_TX_CLIENT_HELLO : Nat := 0x0001

/-- TLS TX pending flag TLS_TX_CERTIFICATE (tls.h line 104) -/
def TLS_TX_CERTIFICATE : Nat := 0x0002

/-- TLS TX pending flag TLS_TX_CLIENT_KEY_EXCHANGE (tls.h line 105) -/
def TLS_TX_CLIENT_KEY_EXCHANGE : Nat := 0x0004

/-- TLS TX pending flag TLS_TX_CERTIFICATE_VERIFY (tls.h line 106) -/
def TLS_TX_CERTIFICATE_VERIFY : Nat := 0x0008

/-- TLS TX pending flag TLS_TX_CHANGE_CIPHER (tls.h line 107) -/
def TLS_TX_CHANGE_CIPHER : Nat := 0x0010

/-- TLS TX pending flag TLS_TX_FINISHED (tls.h line 108) -/
def TLS_TX_FINISHED : Nat := 0x0020

/-- The six TX pending flags of enum tls_tx_pending, in declaration order. -/
def tls_tx_pending_flags : List Nat :=
  [TLS_TX_CLIENT_HELLO, TLS_TX_CERTIFICATE, TLS_TX_CLIENT_KEY_EXCHANGE,
   TLS_TX_CERTIFICATE_VERIFY, TLS_TX_CHANGE_CIPHER, TLS_TX_FINISHED]

/-! ## Cryptographic algorithm identities

The concrete primitive implementations are external collaborators (crypto.h,
md5.h, sha1.h, sha256.h are not part of this repository); a tls_cipher_suite
holds pointers to them. Pointer identity is embedded as an inductive tag. -/

/-- A public-key algorithm referenced by struct tls_cipher_suite. Only RSA
appears in this engine (RSA key exchange only). -/
inductive pubkey_algorithm where
  | rsa
deriving DecidableEq, Repr

/-- A bulk cipher algorithm referenced by struct tls_cipher_suite. -/
inductive cipher_algorithm where
  | cipher_null
  | aes_cbc
deriving DecidableEq, Repr

/-- A digest algorithm referenced by struct tls_cipher_suite or used for
handshake verification. -/
inductive digest_algorithm where
  | md5
  | sha1
  | sha256
  | md5_sha1
deriving DecidableEq, Repr

/-- Network byte order of a 16-bit value: swap the two bytes (htons). -/
def tls_htons (x : Nat) : Nat := (x % 0x100) * 0x100 + (x / 0x100) % 0x100

/-- A TLS cipher suite (tls.h lines 112 to 123): public-key, bulk cipher and
MAC digest algorithms, key length, and the two-byte numeric code stored in
network-endian order. -/
structure tls_cipher_suite where
  pubkey : pubkey_algorithm
  cipher : cipher_algorithm
  digest : digest_algorithm
  key_len : Nat
  code : Nat
deriving DecidableEq, Repr

/-- Modelled from the spec: the static cipher suite registry of tls.c is not
in src; the spec fixes it to RSA key exchange only with exactly the suites
whose codes tls.h declares, each code stored in network-endian order. -/
def tls_cipher_suites : List tls_cipher_suite :=
  [⟨.rsa, .cipher_null, .md5, 0, tls_htons TLS_RSA_WITH_NULL_MD5⟩,
   ⟨.rsa, .cipher_null, .sha1, 0, tls_htons TLS_RSA_WITH_NULL_SHA⟩,
   ⟨.rsa, .aes_cbc, .sha1, 16, tls_htons TLS_RSA_WITH_AES_128_CBC_SHA⟩,
   ⟨.rsa, .aes_cbc, .sha1, 32, tls_htons TLS_RSA_WITH_AES_256_CBC_SHA⟩,
   ⟨.rsa, .aes_cbc, .sha256, 16, tls_htons TLS_RSA_WITH_AES_128_CBC_SHA256⟩,
   ⟨.rsa, .aes_cbc, .sha256, 32, tls_htons TLS_RSA_WITH_AES_256_CBC_SHA256⟩]

/-- A TLS cipher specification (tls.h lines 126 to 139). The suite pointer is
NULL in a freshly constructed instance, the null cipher with no MAC; the
opaque key material contexts are embedded as the MAC secret bytes. -/
structure tls_cipherspec where
  suite : Option tls_cipher_suite
  mac_secret : List Nat
deriving DecidableEq, Repr

/-- The null cipher specification: a zeroed struct tls_cipherspec, as left by
memset on allocation or after activation discards the pending slot. -/
def tls_cipherspec_null : tls_cipherspec := ⟨none, []⟩

/-- A TLS record header value (struct tls_header, tls.h lines 23 to 36):
content type, protocol version, payload length. -/
structure tls_header where
  type : Nat
  version : Nat
  length : Nat
deriving DecidableEq, Repr

/-- TLS pre-master secret (tls.h lines 160 to 165): a protocol version and
46 random bytes. -/
structure tls_pre_master_secret where
  version : Nat
  random : List Nat
deriving DecidableEq, Repr

/-- TLS client random data (tls.h lines 168 to 173): GMT Unix time and
28 random bytes. -/
structure tls_client_random where
  gmt_unix_time : Nat
  random : List Nat
deriving DecidableEq, Repr

/-! ## Ideal MAC model

Modelled from the spec: the record MAC (HMAC of the active spec's digest,
tls.c not in src). The spec states the MAC input is
sequence number, header, plaintext, keyed by the MAC secret; the tag is
embedded symbolically as that authenticated input itself (an ideal MAC:
verification succeeds exactly when the recomputed input equals the tag's). -/
structure tls_hmac_tag where
  secret : List Nat
  seq : Nat
  header : tls_header
  content : List Nat
deriving DecidableEq, Repr

/-- Modelled from the spec: compute the record MAC over
sequence number, header and plaintext, keyed by the MAC secret. -/
def tls_hmac (secret : List Nat) (seq : Nat) (hdr : tls_header)
    (content : List Nat) : tls_hmac_tag :=
  ⟨secret, seq, hdr, content⟩

/-- Modelled from the spec: verify a received record MAC by recomputing the
MAC at the expected sequence number and comparing. -/
def tls_hmac_verify (secret : List Nat) (seq : Nat) (hdr : tls_header)
    (content : List Nat) (tag : tls_hmac_tag) : Bool :=
  tls_hmac secret seq hdr content == tag

/-- A protected TLS record as it leaves the record layer: header fields,
payload, and the MAC tag (none under the null cipher). -/
structure tls_record where
  type : Nat
  version : Nat
  content : List Nat
  mac : Option tls_hmac_tag
deriving DecidableEq, Repr

/-- A TLS alert outcome: level (TLS_ALERT_WARNING or TLS_ALERT_FATAL) and
description code. -/
structure tls_alert where
  level : Nat
  description : Nat
deriving DecidableEq, Repr

/-! ## Session state

The protocol-state fields of struct tls_session (tls.h lines 198 to 260).
The refcnt, stream interface, process and x509 chain fields are handles to
external collaborators outside this engine and are not embedded. The
dispatched list records the observable dispatch outcomes of the RX machine;
the failed flag records a fatal framing error. -/
structure tls_session where
  version : Nat
  tx_cipherspec : tls_cipherspec
  tx_cipherspec_pending : tls_cipherspec
  rx_cipherspec : tls_cipherspec
  rx_cipherspec_pending : tls_cipherspec
  pre_master_secret : tls_pre_master_secret
  master_secret : List Nat
  server_random : List Nat
  client_random : tls_client_random
  handshake_digest : digest_algorithm
  tx_seq : Nat
  tx_pending : Nat
  tx_ready : Bool
  rx_seq : Nat
  rx_state : tls_rx_state
  rx_rcvd : List Nat
  rx_header : Option tls_header
  dispatched : List (tls_header × List Nat)
  failed : Bool
deriving DecidableEq, Repr

/-- A freshly allocated session: zeroed storage, so both cipher spec pairs
are the null cipher, both sequence numbers are 0, and the RX state is
TLS_RX_HEADER (= 0 in enum tls_rx_state). -/
def tls_session_new : tls_session :=
  { version := 0
    tx_cipherspec := tls_cipherspec_null
    tx_cipherspec_pending := tls_cipherspec_null
    rx_cipherspec := tls_cipherspec_null
    rx_cipherspec_pending := tls_cipherspec_null
    pre_master_secret := ⟨0, []⟩
    master_secret := []
    server_random := []
    client_random := ⟨0, []⟩
    handshake_digest := .md5_sha1
    tx_seq := 0
    tx_pending := 0
    tx_ready := false
    rx_seq := 0
    rx_state := .TLS_RX_HEADER
    rx_rcvd := []
    rx_header := none
    dispatched := []
    failed := false }

/-! ## Record protection and cipher spec activation -/

/-- Modelled from the spec: frame one outgoing plaintext as a record using
only the CURRENT (active) TX cipher specification: under the null cipher the
payload carries no MAC, otherwise the MAC is computed over the TX sequence
number, the header and the plaintext, keyed by the active spec's MAC secret
(tls.c is not in src). -/
def tls_protect_tx (s : tls_session) (ty : Nat) (data : List Nat) : tls_record :=
  match s.tx_cipherspec.suite with
  | none => ⟨ty, s.version, data, none⟩
  | some _ =>
      ⟨ty, s.version, data,
       some (tls_hmac s.tx_cipherspec.mac_secret s.tx_seq
              ⟨ty, s.version, data.length⟩ data)⟩

/-- Modelled from the spec: send one record: frame it under the active TX
cipher specification and increment the TX sequence number, on every record
regardless of content type. -/
def tls_send_record (s : tls_session) (ty : Nat) (data : List Nat) :
    tls_session × tls_record :=
  ({s with tx_seq := s.tx_seq + 1}, tls_protect_tx s ty data)

/-- Modelled from the spec: verify a received record using only the CURRENT
(active) RX cipher specification: under the null cipher there is no MAC to
check, otherwise the MAC is recomputed at the RX sequence number and
compared with the record's tag. -/
def tls_verify_rx (s : tls_session) (r : tls_record) : Bool :=
  match s.rx_cipherspec.suite with
  | none => true
  | some _ =>
      r.mac == some (tls_hmac s.rx_cipherspec.mac_secret s.rx_seq
                      ⟨r.type, r.version, r.content.length⟩ r.content)

/-- Modelled from the spec: process one complete received record: verify its
MAC under the active RX cipher specification, then increment the RX sequence
number; a MAC failure is a fatal alert. -/
def tls_new_ciphertext (s : tls_session) (r : tls_record) :
    Except tls_alert tls_session :=
  if tls_verify_rx s r then .ok {s with rx_seq := s.rx_seq + 1}
  else .error ⟨TLS_ALERT_FATAL, 20⟩

/-- Modelled from the spec: activate the pending TX cipher specification on
the Change Cipher Spec signal: atomically, the pending spec becomes the
active spec and the previously active spec is discarded, leaving the pending
slot as the null cipher. -/
def tls_change_cipher_tx (s : tls_session) : tls_session :=
  {s with tx_cipherspec := s.tx_cipherspec_pending
          tx_cipherspec_pending := tls_cipherspec_null}

/-- Modelled from the spec: activate the pending RX cipher specification on
receipt of a Change Cipher Spec record, effective for the next record. -/
def tls_change_cipher_rx (s : tls_session) : tls_session :=
  {s with rx_cipherspec := s.rx_cipherspec_pending
          rx_cipherspec_pending := tls_cipherspec_null}

/-! ## RX record reassembly state machine -/

/-- Parse the five header bytes of a record, big-endian fields in wire
order: 1-byte type, 2-byte version, 2-byte length. -/
def tls_parse_header (b : List Nat) : tls_header :=
  ⟨b.headD 0, b.getD 1 0 * 0x100 + b.getD 2 0, b.getD 3 0 * 0x100 + b.getD 4 0⟩

/-- Modelled from the spec: consume one byte of ciphertext stream input in
the two-state RX machine of tls.c (not in src). In TLS_RX_HEADER the byte
joins the header accumulator; once exactly sizeof_tls_header bytes are held
the length is validated against the maximum maxLen (fatal framing error
beyond it) and the machine moves to TLS_RX_DATA with an empty data buffer
(a zero-length record is dispatched at once). In TLS_RX_DATA the byte joins
the data buffer; once length bytes are held the record is dispatched and the
machine returns to TLS_RX_HEADER. State persists between calls. -/
def tls_rx_byte (maxLen : Nat) (s : tls_session) (b : Nat) : tls_session :=
  if s.failed then s else
  match s.rx_state with
  | .TLS_RX_HEADER =>
      if (s.rx_rcvd ++ [b]).length < sizeof_tls_header then
        {s with rx_rcvd := s.rx_rcvd ++ [b]}
      else if (tls_parse_header (s.rx_rcvd ++ [b])).length ≤ maxLen then
        if (tls_parse_header (s.rx_rcvd ++ [b])).length = 0 then
          {s with rx_rcvd := [], rx_header := none,
                  dispatched := s.dispatched ++
                    [(tls_parse_header (s.rx_rcvd ++ [b]), [])]}
        else
          {s with rx_state := .TLS_RX_DATA, rx_rcvd := [],
                  rx_header := some (tls_parse_header (s.rx_rcvd ++ [b]))}
      else {s with failed := true}
  | .TLS_RX_DATA =>
      match s.rx_header with
      | none => {s with failed := true}
      | some hdr =>
          if (s.rx_rcvd ++ [b]).length < hdr.length then
            {s with rx_rcvd := s.rx_rcvd ++ [b]}
          else
            {s with rx_state := .TLS_RX_HEADER, rx_rcvd := [],
                    rx_header := none,
                    dispatched := s.dispatched ++ [(hdr, s.rx_rcvd ++ [b])]}

/-- Modelled from the spec: one receive call delivering a chunk of bytes;
each byte is consumed in order by the RX state machine. -/
def tls_rx_bytes (maxLen : Nat) (s : tls_session) (bs : List Nat) : tls_session :=
  bs.foldl (tls_rx_byte maxLen) s

/-- Modelled from the spec: a sequence of receive calls, one chunk each;
RX state persists across calls. -/
def tls_rx_chunks (maxLen : Nat) (s : tls_session) (cs : List (List Nat)) :
    tls_session :=
  cs.foldl (tls_rx_bytes maxLen) s

/-! ## Version and cipher suite selection -/

/-- The protocol versions the engine supports: exactly the three
TLS_VERSION_XXX constants tls.h declares. -/
def tls_supported_versions : List Nat :=
  [TLS_VERSION_TLS_1_0, TLS_VERSION_TLS_1_1, TLS_VERSION_TLS_1_2]

/-- Modelled from the spec: ServerHello version processing of tls.c (not in
src): the selected version must be one of the three supported versions,
else the session fails with a fatal error; on success the version is
pinned in the session. -/
def tls_select_version (s : tls_session) (v : Nat) :
    Except tls_alert tls_session :=
  if v ∈ tls_supported_versions then .ok {s with version := v}
  else .error ⟨TLS_ALERT_FATAL, 70⟩

/-- Modelled from the spec: ServerHello cipher suite processing of tls.c
(not in src): the network-endian code must appear in the static registry,
else fatal; on success the suite is installed in both PENDING cipher
specifications, to be activated later by the Change Cipher Spec signals. -/
def tls_select_cipher (s : tls_session) (code : Nat) :
    Except tls_alert tls_session :=
  match tls_cipher_suites.find? (fun cs => cs.code == code) with
  | some suite =>
      .ok {s with tx_cipherspec_pending := ⟨some suite, s.tx_cipherspec_pending.mac_secret⟩
                  rx_cipherspec_pending := ⟨some suite, s.rx_cipherspec_pending.mac_secret⟩}
  | none => .error ⟨TLS_ALERT_FATAL, 40⟩

/-! ## Transmit scheduler -/

/-- The six outgoing handshake-layer message kinds the scheduler can owe. -/
inductive tls_tx_msg where
  | client_hello
  | certificate
  | client_key_exchange
  | certificate_verify
  | change_cipher
  | finished
deriving DecidableEq, Repr

/-- The pending flag of enum tls_tx_pending that arms each message kind. -/
def tls_tx_flag : tls_tx_msg → Nat
  | .client_hello => TLS_TX_CLIENT_HELLO
  | .certificate => TLS_TX_CERTIFICATE
  | .client_key_exchange => TLS_TX_CLIENT_KEY_EXCHANGE
  | .certificate_verify => TLS_TX_CERTIFICATE_VERIFY
  | .change_cipher => TLS_TX_CHANGE_CIPHER
  | .finished => TLS_TX_FINISHED

/-- The fixed protocol emission order of the client's messages:
ClientHello, Certificate, ClientKeyExchange, CertificateVerify,
ChangeCipherSpec, Finished. -/
def tls_tx_msg_order : List tls_tx_msg :=
  [.client_hello, .certificate, .client_key_exchange, .certificate_verify,
   .change_cipher, .finished]

/-- Modelled from the spec: one scheduling opportunity of the TX process of
tls.c (not in src): test the pending bits in the fixed priority order,
clear exactly the first set bit and send the corresponding message;
with no bit set nothing is sent. Returns the message sent and the new
pending bitmask. -/
def tls_tx_step (p : Nat) : Option (tls_tx_msg × Nat) :=
  if p &&& TLS_TX_CLIENT_HELLO ≠ 0 then
    some (.client_hello, p ^^^ TLS_TX_CLIENT_HELLO)
  else if p &&& TLS_TX_CERTIFICATE ≠ 0 then
    some (.certificate, p ^^^ TLS_TX_CERTIFICATE)
  else if p &&& TLS_TX_CLIENT_KEY_EXCHANGE ≠ 0 then
    some (.client_key_exchange, p ^^^ TLS_TX_CLIENT_KEY_EXCHANGE)
  else if p &&& TLS_TX_CERTIFICATE_VERIFY ≠ 0 then
    some (.certificate_verify, p ^^^ TLS_TX_CERTIFICATE_VERIFY)
  else if p &&& TLS_TX_CHANGE_CIPHER ≠ 0 then
    some (.change_cipher, p ^^^ TLS_TX_CHANGE_CIPHER)
  else if p &&& TLS_TX_FINISHED ≠ 0 then
    some (.finished, p ^^^ TLS_TX_FINISHED)
  else none

/-- Run the scheduler to quiescence (fuel-bounded; six steps suffice for any
six-bit mask), collecting the messages in the order they go on the wire. -/
def tls_tx_drain : Nat → Nat → List tls_tx_msg
  | 0, _ => []
  | fuel + 1, p =>
      match tls_tx_step p with
      | none => []
      | some (m, p2) => m :: tls_tx_drain fuel p2

/-- Decidable per-mask check that one scheduler step clears exactly one set
bit: either nothing is pending and no message is sent, or the sent message's
flag was set, is cleared in the result, and nothing else changes. -/
def tls_tx_step_ok (p : Nat) : Bool :=
  match tls_tx_step p with
  | none => p == 0
  | some (m, p2) =>
      (p &&& tls_tx_flag m != 0) && (p2 == p ^^^ tls_tx_flag m)
        && (p == p2 + tls_tx_flag m)

/-! ## Session operations, for the preservation properties -/

/-- The modelled session-transforming operations that run after ServerHello
processing: record transmission, byte reception, one scheduler step (which
on emitting Change Cipher Spec also activates the pending TX spec), and RX
cipher activation on a received Change Cipher Spec. -/
inductive tls_session_op where
  | send_record (ty : Nat) (data : List Nat)
  | rx_byte (maxLen b : Nat)
  | tx_step
  | rx_change_cipher
deriving Repr

/-- Apply one modelled session operation. -/
def tls_apply_op (s : tls_session) : tls_session_op → tls_session
  | .send_record ty data => (tls_send_record s ty data).1
  | .rx_byte maxLen b => tls_rx_byte maxLen s b
  | .tx_step =>
      match tls_tx_step s.tx_pending with
      | none => s
      | some (m, p2) =>
          if m = .change_cipher then
            tls_change_cipher_tx {s with tx_pending := p2}
          else {s with tx_pending := p2}
  | .rx_change_cipher => tls_change_cipher_rx s

/-- The four cipher spec slots' suite fields of a session. -/
def tls_session_suites (s : tls_session) : List (Option tls_cipher_suite) :=
  [s.tx_cipherspec.suite, s.tx_cipherspec_pending.suite,
   s.rx_cipherspec.suite, s.rx_cipherspec_pending.suite]

/-- The four cipher spec slots of a session, as a tuple. -/
def tls_session_specs (s : tls_session) :
    tls_cipherspec × tls_cipherspec × tls_cipherspec × tls_cipherspec :=
  (s.tx_cipherspec, s.tx_cipherspec_pending, s.rx_cipherspec,
   s.rx_cipherspec_pending)

/-- Send a list of records (content type and payload each) in order. -/
def tls_send_all (s : tls_session) (msgs : List (Nat × List Nat)) : tls_session :=
  msgs.foldl (fun t m => (tls_send_record t m.1 m.2).1) s

/-! ## Wire serialization -/

/-- Big-endian serialization of a 16-bit value, as a packed uint16_t field
on the wire. -/
def tls_be16 (v : Nat) : List Nat := [v / 0x100 % 0x100, v % 0x100]

/-- Wire bytes of struct tls_pre_master_secret: the packed layout is the
2-byte big-endian version directly followed by the 46 random bytes. -/
def tls_pre_master_secret_bytes (p : tls_pre_master_secret) : List Nat :=
  tls_be16 p.version ++ p.random

/-! ## Combined MD5+SHA-1 handshake digest -/

/-- Modelled from the spec: MD5_DIGEST_SIZE from md5.h, which is not in
src; MD5 produces a 16-byte digest. -/
def MD5_DIGEST_SIZE : Nat := 16

/-- Modelled from the spec: SHA1_DIGEST_SIZE from sha1.h, which is not in
src; SHA-1 produces a 20-byte digest. -/
def SHA1_DIGEST_SIZE : Nat := 20

/-- MD5+SHA1 digest size (tls.h line 195): the size of the packed struct
md5_sha1_digest, the MD5 digest directly followed by the SHA-1 digest. -/
def MD5_SHA1_DIGEST_SIZE : Nat := MD5_DIGEST_SIZE + SHA1_DIGEST_SIZE

/-- An MD5+SHA1 context (tls.h lines 176 to 181): packed, an MD5 context
directly followed by a SHA-1 context, embedded as their byte contents. -/
structure md5_sha1_context where
  md5 : List Nat
  sha1 : List Nat
deriving DecidableEq, Repr

/-- The byte layout of struct md5_sha1_context: exact concatenation of the
two contexts, with no padding. -/
def md5_sha1_context_bytes (c : md5_sha1_context) : List Nat :=
  c.md5 ++ c.sha1

/-- An MD5+SHA1 digest (tls.h lines 187 to 192): packed, the MD5 digest
directly followed by the SHA-1 digest. -/
structure md5_sha1_digest where
  md5 : List Nat
  sha1 : List Nat
deriving DecidableEq, Repr

/-- The byte layout of struct md5_sha1_digest: exact concatenation of the
two digests, with no padding. -/
def md5_sha1_digest_bytes (d : md5_sha1_digest) : List Nat :=
  d.md5 ++ d.sha1

/-- Modelled from the spec: the handshake transcript digest algorithm chosen
by tls.c (not in src) from the negotiated version: the combined MD5+SHA-1
digest for TLS 1.0 and 1.1, the single SHA-256 digest for TLS 1.2. -/
def tls_handshake_digest_of_version (v : Nat) : digest_algorithm :=
  if v ≤ TLS_VERSION_TLS_1_1 then .md5_sha1 else .sha256

/-! ## Helper lemmas -/

/-- The RX byte machine touches only the RX reassembly fields: the cipher
spec slots, the master secret and the TX state are untouched by every
branch. -/
theorem tls_rx_byte_preserves (maxLen : Nat) (s : tls_session) (b : Nat) :
    (tls_rx_byte maxLen s b).master_secret = s.master_secret ∧
    tls_session_specs (tls_rx_byte maxLen s b) = tls_session_specs s ∧
    tls_session_suites (tls_rx_byte maxLen s b) = tls_session_suites s ∧
    (tls_rx_byte maxLen s b).tx_seq = s.tx_seq ∧
    (tls_rx_byte maxLen s b).tx_pending = s.tx_pending := by
  unfold tls_rx_byte
  repeat' split
  all_goals exact ⟨rfl, rfl, rfl, rfl, rfl⟩

/-- Cipher spec activation touches only the cipher spec slots. -/
theorem tls_change_cipher_preserves (s : tls_session) :
    (tls_change_cipher_tx s).master_secret = s.master_secret ∧
    (tls_change_cipher_rx s).master_secret = s.master_secret := ⟨rfl, rfl⟩

/-- No modelled session operation writes the master secret. -/
theorem tls_apply_op_master (s : tls_session) (op : tls_session_op) :
    (tls_apply_op s op).master_secret = s.master_secret := by
  cases op with
  | send_record ty data => rfl
  | rx_byte maxLen b => exact (tls_rx_byte_preserves maxLen s b).1
  | tx_step =>
      simp only [tls_apply_op]
      split
      · rfl
      · split <;> rfl
  | rx_change_cipher => rfl

/-- Feeding two byte chunks in sequence equals feeding their
concatenation: the RX machine is a left fold over bytes. -/
theorem tls_rx_bytes_append (m : Nat) (s : tls_session) (l1 l2 : List Nat) :
    tls_rx_bytes m s (l1 ++ l2) = tls_rx_bytes m (tls_rx_bytes m s l1) l2 := by
  simp [tls_rx_bytes]

/-- Feeding any list of chunks one call at a time equals feeding all the
bytes in a single call. -/
theorem tls_rx_chunks_eq_join (m : Nat) (cs : List (List Nat))
    (s : tls_session) :
    tls_rx_chunks m s cs = tls_rx_bytes m s cs.flatten := by
  induction cs generalizing s with
  | nil => rfl
  | cons c cs ih =>
      have h1 : tls_rx_chunks m s (c :: cs) =
          tls_rx_chunks m (tls_rx_bytes m s c) cs := rfl
      rw [h1, ih, ← tls_rx_bytes_append, List.flatten_cons]

/-! ## Claims -/

/-- C10: the four record content-type codes (20, 21, 22, 23) are pairwise
distinct and the ten handshake message-type codes
(0, 1, 2, 11, 12, 13, 14, 15, 16, 20) are pairwise distinct, so dispatch by
type within each layer is unambiguous; distinctness holds only within each
namespace, since TLS_FINISHED numerically equals TLS_TYPE_CHANGE_CIPHER. -/
theorem tls_type_codes_distinct :
    tls_content_types = [20, 21, 22, 23] ∧
    tls_content_types.Nodup ∧
    tls_handshake_types = [0, 1, 2, 11, 12, 13, 14, 15, 16, 20] ∧
    tls_handshake_types.Nodup ∧
    TLS_FINISHED = TLS_TYPE_CHANGE_CIPHER := by
  decide

/-- C5: exactly the three versions with wire codes 0x0301, 0x0302 and
0x0303 are supported; a ServerHello selecting any version outside this set
fails with a fatal error, and a supported version is pinned in the
session. -/
theorem tls_version_support :
    tls_supported_versions =
      [TLS_VERSION_TLS_1_0, TLS_VERSION_TLS_1_1, TLS_VERSION_TLS_1_2] ∧
    tls_supported_versions = [0x0301, 0x0302, 0x0303] ∧
    tls_supported_versions.Nodup ∧
    (∀ s v, v ∉ tls_supported_versions →
      tls_select_version s v = .error ⟨TLS_ALERT_FATAL, 70⟩) ∧
    (∀ s v, v ∈ tls_supported_versions →
      tls_select_version s v = .ok {s with version := v}) := by
  refine ⟨rfl, by decide, by decide, ?_, ?_⟩ <;>
    intro s v h <;> simp [tls_select_version, h]

/-- C5 witness: the unsupported version 0x0300 (SSLv3) is rejected with a
fatal alert. -/
theorem tls_version_support_witness :
    tls_select_version tls_session_new 0x0300 =
      .error ⟨TLS_ALERT_FATAL, 70⟩ :=
  tls_version_support.2.2.2.1 tls_session_new 0x0300 (by decide)

/-- C3: the six TX pending flags are the pairwise-distinct single-bit
values 1, 2, 4, 8, 16, 32, whose ascending numeric order is exactly the
protocol emission order ClientHello, Certificate, ClientKeyExchange,
CertificateVerify, ChangeCipherSpec, Finished; each scheduler step clears
exactly one pending bit (the lowest) and sends its message, so draining any
six-bit mask puts the armed messages on the wire in protocol order. -/
theorem tls_tx_scheduler_order :
    tls_tx_pending_flags = [1, 2, 4, 8, 16, 32] ∧
    tls_tx_pending_flags.Nodup ∧
    (∀ i : Fin 6, tls_tx_pending_flags.getD i 0 = 2 ^ (i : Nat)) ∧
    tls_tx_msg_order.map tls_tx_flag = tls_tx_pending_flags ∧
    List.Pairwise (fun a b => a < b) tls_tx_pending_flags ∧
    (∀ p : Fin 64, tls_tx_step_ok p = true) ∧
    (∀ p : Fin 64, tls_tx_drain 6 p =
      tls_tx_msg_order.filter (fun m => (p : Nat) &&& tls_tx_flag m != 0)) := by
  decide

/-- C1: for each direction only the active cipher spec slot protects a
record (the pending slot is never consulted); the pending spec becomes the
active spec atomically on the Change Cipher Spec signal, at which moment
the previously active spec is discarded and the pending slot reverts to the
null cipher; and no other session operation alters the four slots, except
the scheduler step that transmits Change Cipher Spec, which performs
exactly the TX activation. -/
theorem tls_cipherspec_slot_discipline :
    (∀ s p ty data,
      tls_protect_tx {s with tx_cipherspec_pending := p} ty data =
        tls_protect_tx s ty data) ∧
    (∀ s p r,
      tls_verify_rx {s with rx_cipherspec_pending := p} r = tls_verify_rx s r) ∧
    (∀ s, tls_change_cipher_tx s =
      {s with tx_cipherspec := s.tx_cipherspec_pending,
              tx_cipherspec_pending := tls_cipherspec_null}) ∧
    (∀ s, tls_change_cipher_rx s =
      {s with rx_cipherspec := s.rx_cipherspec_pending,
              rx_cipherspec_pending := tls_cipherspec_null}) ∧
    (∀ s ty data,
      tls_session_specs (tls_send_record s ty data).1 = tls_session_specs s) ∧
    (∀ maxLen s b,
      tls_session_specs (tls_rx_byte maxLen s b) = tls_session_specs s) ∧
    (∀ s m p2, tls_tx_step s.tx_pending = some (m, p2) → m ≠ .change_cipher →
      tls_session_specs (tls_apply_op s .tx_step) = tls_session_specs s) ∧
    (∀ s p2, tls_tx_step s.tx_pending = some (.change_cipher, p2) →
      (tls_apply_op s .tx_step).tx_cipherspec = s.tx_cipherspec_pending ∧
      (tls_apply_op s .tx_step).tx_cipherspec_pending = tls_cipherspec_null) := by
  refine ⟨fun s p ty data => rfl, fun s p r => rfl, fun s => rfl, fun s => rfl,
    fun s ty data => rfl, fun maxLen s b => (tls_rx_byte_preserves maxLen s b).2.1,
    ?_, ?_⟩
  · intro s m p2 h hne
    simp only [tls_apply_op, h]
    rw [if_neg hne]
    rfl
  · intro s p2 h
    simp only [tls_apply_op, h]
    exact ⟨rfl, rfl⟩

/-- C1 witness: with only the Change Cipher Spec bit armed, the scheduler
step activates the pending TX spec and nulls the pending slot. -/
theorem tls_cipherspec_slot_discipline_witness :
    (tls_apply_op {tls_session_new with tx_pending := 16} .tx_step).tx_cipherspec =
      ({tls_session_new with tx_pending := 16} : tls_session).tx_cipherspec_pending ∧
    (tls_apply_op {tls_session_new with tx_pending := 16} .tx_step).tx_cipherspec_pending =
      tls_cipherspec_null :=
  tls_cipherspec_slot_discipline.2.2.2.2.2.2.2
    {tls_session_new with tx_pending := 16} 0 (by decide)

/-- C2: the TX sequence number increments by one on every record sent
regardless of content type (and by the number of records over any send
sequence, so it is monotonic and never reused); the RX sequence number
increments on every record received; and the sequence number is part of the
MAC input, so a record MAC computed at one sequence number fails
verification at any other. -/
theorem tls_sequence_number_monotonic :
    (∀ s ty data, (tls_send_record s ty data).1.tx_seq = s.tx_seq + 1) ∧
    (∀ s msgs, (tls_send_all s msgs).tx_seq = s.tx_seq + msgs.length) ∧
    (∀ s r s2, tls_new_ciphertext s r = .ok s2 → s2.rx_seq = s.rx_seq + 1) ∧
    (∀ secret seq1 seq2 hdr content, seq1 ≠ seq2 →
      tls_hmac_verify secret seq2 hdr content
        (tls_hmac secret seq1 hdr content) = false) := by
  refine ⟨fun s ty data => rfl, ?_, ?_, ?_⟩
  · intro s msgs
    induction msgs generalizing s with
    | nil => rfl
    | cons msg msgs ih =>
        have h1 : tls_send_all s (msg :: msgs) =
            tls_send_all (tls_send_record s msg.1 msg.2).1 msgs := rfl
        rw [h1, ih]
        simp [tls_send_record]
        omega
  · intro s r s2 h
    unfold tls_new_ciphertext at h
    split at h
    · cases h; rfl
    · exact Except.noConfusion h
  · intro secret seq1 seq2 hdr content h
    simp only [tls_hmac_verify, tls_hmac]
    rw [beq_eq_false_iff_ne]
    intro hEq
    cases hEq
    exact h rfl

/-- C2 witness: a record received under the null RX spec increments the RX
sequence number from 0 to 1, and a MAC computed at sequence number 0 fails
verification at sequence number 1. -/
theorem tls_sequence_number_monotonic_witness :
    ({tls_session_new with rx_seq := 1} : tls_session).rx_seq =
      tls_session_new.rx_seq + 1 ∧
    tls_hmac_verify [5] 1 ⟨23, 0x0303, 0⟩ []
      (tls_hmac [5] 0 ⟨23, 0x0303, 0⟩ []) = false :=
  ⟨tls_sequence_number_monotonic.2.2.1 tls_session_new ⟨23, 0x0303, [], none⟩
      {tls_session_new with rx_seq := 1} rfl,
   tls_sequence_number_monotonic.2.2.2 [5] 0 1 ⟨23, 0x0303, 0⟩ [] (by decide)⟩

/-- C4: record reception is a two-state machine whose only states are
TLS_RX_HEADER and TLS_RX_DATA, with TLS_RX_HEADER the initial state of a
fresh session; state persists across receive calls (reception is a fold
over the delivered bytes), and feeding any non-empty chunking of a record's
bytes one call at a time reaches the same state, and in particular the same
dispatch outcome, as feeding all the bytes in a single call. -/
theorem tls_rx_partial_delivery :
    tls_session_new.rx_state = .TLS_RX_HEADER ∧
    (∀ st : tls_rx_state, st = .TLS_RX_HEADER ∨ st = .TLS_RX_DATA) ∧
    (∀ maxLen s cs bytes, cs.flatten = bytes → (∀ c ∈ cs, c ≠ []) →
      tls_rx_chunks maxLen s cs = tls_rx_bytes maxLen s bytes ∧
      (tls_rx_chunks maxLen s cs).dispatched =
        (tls_rx_bytes maxLen s bytes).dispatched) := by
  refine ⟨rfl, fun st => ?_, fun maxLen s cs bytes hj hne => ?_⟩
  · cases st
    · exact Or.inl rfl
    · exact Or.inr rfl
  · subst hj
    exact ⟨tls_rx_chunks_eq_join maxLen cs s,
           by rw [tls_rx_chunks_eq_join]⟩

/-- C4 witness: a seven-byte handshake record delivered in four non-empty
chunks yields the same dispatch outcome as a single seven-byte call. -/
theorem tls_rx_partial_delivery_witness :
    (tls_rx_chunks 100 tls_session_new
        [[22, 3], [3, 0, 2], [170], [187]]).dispatched =
      (tls_rx_bytes 100 tls_session_new
        [22, 3, 3, 0, 2, 170, 187]).dispatched :=
  (tls_rx_partial_delivery.2.2 100 tls_session_new
    [[22, 3], [3, 0, 2], [170], [187]] [22, 3, 3, 0, 2, 170, 187]
    (by decide) (by decide)).2

/-- C6: the static cipher suite registry contains exactly six suites, all
with RSA key exchange, with the two-byte codes 0x0001, 0x0002, 0x002f,
0x0035, 0x003c and 0x003d, each stored in network-endian order; the suite
selected at ServerHello comes from the registry and is installed in both
pending slots, and no later session operation ever introduces any other
suite into the session. -/
theorem tls_cipher_suite_registry :
    tls_cipher_suites.map (fun cs => tls_htons cs.code) =
      [TLS_RSA_WITH_NULL_MD5, TLS_RSA_WITH_NULL_SHA,
       TLS_RSA_WITH_AES_128_CBC_SHA, TLS_RSA_WITH_AES_256_CBC_SHA,
       TLS_RSA_WITH_AES_128_CBC_SHA256, TLS_RSA_WITH_AES_256_CBC_SHA256] ∧
    tls_cipher_suites.map (fun cs => tls_htons cs.code) =
      [0x0001, 0x0002, 0x002f, 0x0035, 0x003c, 0x003d] ∧
    (tls_cipher_suites.map (fun cs => cs.code)).Nodup ∧
    (∀ cs ∈ tls_cipher_suites, cs.pubkey = .rsa) ∧
    (∀ s code s2, tls_select_cipher s code = .ok s2 →
      ∃ suite, suite ∈ tls_cipher_suites ∧ suite.code = code ∧
        s2.tx_cipherspec_pending.suite = some suite ∧
        s2.rx_cipherspec_pending.suite = some suite) ∧
    (∀ s op x, x ∈ tls_session_suites (tls_apply_op s op) →
      x ∈ tls_session_suites s ∨ x = none) := by
  refine ⟨by decide, by decide, by decide, by decide, ?_, ?_⟩
  · intro s code s2 h
    unfold tls_select_cipher at h
    split at h
    · rename_i suite hfind
      cases h
      exact ⟨suite, List.mem_of_find?_eq_some hfind,
             by have := List.find?_some hfind; simpa using this, rfl, rfl⟩
    · exact Except.noConfusion h
  · intro s op x hx
    cases op with
    | send_record ty data => exact Or.inl hx
    | rx_byte maxLen b =>
        simp only [tls_apply_op] at hx
        rw [(tls_rx_byte_preserves maxLen s b).2.2.1] at hx
        exact Or.inl hx
    | tx_step =>
        simp only [tls_apply_op] at hx
        split at hx
        · exact Or.inl hx
        · split at hx
          · simp [tls_session_suites, tls_change_cipher_tx,
                  tls_cipherspec_null] at hx ⊢
            tauto
          · exact Or.inl hx
    | rx_change_cipher =>
        simp [tls_session_suites, tls_apply_op, tls_change_cipher_rx,
              tls_cipherspec_null] at hx ⊢
        tauto

/-- C6 witness: activating the RX cipher spec of a fresh session introduces
no suite that was not already in the session. -/
theorem tls_cipher_suite_registry_witness :
    none ∈ tls_session_suites tls_session_new ∨
      (none : Option tls_cipher_suite) = none :=
  tls_cipher_suite_registry.2.2.2.2.2 tls_session_new .rx_change_cipher none
    (by decide)

/-- C7: the handshake transcript digest is the combined MD5+SHA-1 digest
for TLS 1.0 and TLS 1.1 and the single SHA-256 digest for TLS 1.2; the
combined context and digest are exact concatenations with no padding, so
the combined context occupies exactly the MD5 context size plus the SHA-1
context size and the combined digest is 36 bytes, the 16-byte MD5 digest
directly followed by the 20-byte SHA-1 digest. -/
theorem tls_handshake_digest_selection :
    tls_handshake_digest_of_version TLS_VERSION_TLS_1_0 = .md5_sha1 ∧
    tls_handshake_digest_of_version TLS_VERSION_TLS_1_1 = .md5_sha1 ∧
    tls_handshake_digest_of_version TLS_VERSION_TLS_1_2 = .sha256 ∧
    (∀ c : md5_sha1_context, md5_sha1_context_bytes c = c.md5 ++ c.sha1) ∧
    (∀ (c : md5_sha1_context) (m s1 : Nat),
      c.md5.length = m → c.sha1.length = s1 →
      (md5_sha1_context_bytes c).length = m + s1) ∧
    MD5_DIGEST_SIZE = 16 ∧
    SHA1_DIGEST_SIZE = 20 ∧
    MD5_SHA1_DIGEST_SIZE = MD5_DIGEST_SIZE + SHA1_DIGEST_SIZE ∧
    MD5_SHA1_DIGEST_SIZE = 36 ∧
    (∀ d : md5_sha1_digest, md5_sha1_digest_bytes d = d.md5 ++ d.sha1) ∧
    (∀ d : md5_sha1_digest, d.md5.length = MD5_DIGEST_SIZE →
      d.sha1.length = SHA1_DIGEST_SIZE →
      (md5_sha1_digest_bytes d).length = MD5_SHA1_DIGEST_SIZE) := by
  refine ⟨by decide, by decide, by decide, fun c => rfl, ?_, rfl, rfl, rfl,
    by decide, fun d => rfl, ?_⟩
  · intro c m s1 h1 h2
    simp [md5_sha1_context_bytes, h1, h2]
  · intro d h1 h2
    simp [md5_sha1_digest_bytes, h1, h2, MD5_SHA1_DIGEST_SIZE]

/-- C7 witness: a well-formed combined digest value of 16 MD5 bytes and 20
SHA-1 bytes lays out as exactly 36 bytes. -/
theorem tls_handshake_digest_selection_witness :
    (md5_sha1_digest_bytes
      ⟨List.replicate 16 0, List.replicate 20 0⟩).length =
      MD5_SHA1_DIGEST_SIZE :=
  tls_handshake_digest_selection.2.2.2.2.2.2.2.2.2.2
    ⟨List.replicate 16 0, List.replicate 20 0⟩ (by decide) (by decide)

/-- C8: the record header is exactly 5 bytes with no padding, a 1-byte
content type, a 2-byte big-endian version and a 2-byte big-endian payload
length in that order; in TLS_RX_HEADER the machine accumulates bytes until
it holds exactly these 5, then validates the length against the maximum
(fatal beyond it) and transitions to TLS_RX_DATA. -/
theorem tls_record_header_layout :
    sizeof_tls_header = sizeof_uint8 + sizeof_uint16 + sizeof_uint16 ∧
    sizeof_tls_header = 5 ∧
    (∀ t v1 v2 l1 l2 : Nat, tls_parse_header [t, v1, v2, l1, l2] =
      ⟨t, v1 * 0x100 + v2, l1 * 0x100 + l2⟩) ∧
    (∀ maxLen s b, s.failed = false → s.rx_state = .TLS_RX_HEADER →
      s.rx_rcvd.length + 1 < sizeof_tls_header →
      tls_rx_byte maxLen s b = {s with rx_rcvd := s.rx_rcvd ++ [b]}) ∧
    (∀ maxLen s b, s.failed = false → s.rx_state = .TLS_RX_HEADER →
      s.rx_rcvd.length + 1 = sizeof_tls_header →
      0 < (tls_parse_header (s.rx_rcvd ++ [b])).length →
      (tls_parse_header (s.rx_rcvd ++ [b])).length ≤ maxLen →
      tls_rx_byte maxLen s b =
        {s with rx_state := .TLS_RX_DATA, rx_rcvd := [],
                rx_header := some (tls_parse_header (s.rx_rcvd ++ [b]))}) ∧
    (∀ maxLen s b, s.failed = false → s.rx_state = .TLS_RX_HEADER →
      s.rx_rcvd.length + 1 = sizeof_tls_header →
      maxLen < (tls_parse_header (s.rx_rcvd ++ [b])).length →
      tls_rx_byte maxLen s b = {s with failed := true}) := by
  refine ⟨rfl, rfl, fun t v1 v2 l1 l2 => rfl, ?_, ?_, ?_⟩
  · intro maxLen s b h1 h2 h3
    unfold tls_rx_byte
    rw [h1, h2]
    simp only [Bool.false_eq_true, if_false]
    rw [if_pos (by simpa using h3)]
  · intro maxLen s b h1 h2 h3 h4 h5
    unfold tls_rx_byte
    rw [h1, h2]
    simp only [Bool.false_eq_true, if_false]
    rw [if_neg (by simp [h3]), if_pos h5, if_neg (by omega)]
  · intro maxLen s b h1 h2 h3 h4
    unfold tls_rx_byte
    rw [h1, h2]
    simp only [Bool.false_eq_true, if_false]
    rw [if_neg (by simp [h3]), if_neg (by omega)]

/-- C8 witness: with 4 header bytes held, the fifth byte completes the
5-byte header 22 03 03 00 05 and moves the machine to TLS_RX_DATA with the
parsed header. -/
theorem tls_record_header_layout_witness :
    tls_rx_byte 16384 {tls_session_new with rx_rcvd := [22, 3, 3, 0]} 5 =
      {tls_session_new with
        rx_state := .TLS_RX_DATA, rx_rcvd := [],
        rx_header := some (tls_parse_header ([22, 3, 3, 0] ++ [5]))} :=
  tls_record_header_layout.2.2.2.2.1 16384
    {tls_session_new with rx_rcvd := [22, 3, 3, 0]} 5
    rfl rfl (by decide) (by decide) (by decide)

/-- C9: struct tls_pre_master_secret is exactly 48 bytes with no padding,
the 2-byte protocol version directly followed by the 46 random bytes; the
session's master secret field is exactly 48 bytes; and no modelled session
operation writes the master secret, so it is immutable once derived. -/
theorem tls_secret_sizes :
    sizeof_tls_pre_master_secret = sizeof_uint16 + 46 ∧
    sizeof_tls_pre_master_secret = 48 ∧
    (∀ p : tls_pre_master_secret, (tls_be16 p.version).length = 2 ∧
      tls_pre_master_secret_bytes p = tls_be16 p.version ++ p.random) ∧
    (∀ p : tls_pre_master_secret, p.random.length = 46 →
      (tls_pre_master_secret_bytes p).length = sizeof_tls_pre_master_secret) ∧
    tls_master_secret_size = 48 ∧
    (∀ s op, (tls_apply_op s op).master_secret = s.master_secret) := by
  refine ⟨rfl, rfl, fun p => ⟨rfl, rfl⟩, ?_, rfl, tls_apply_op_master⟩
  intro p h
  simp [tls_pre_master_secret_bytes, tls_be16, h,
        sizeof_tls_pre_master_secret, sizeof_uint16]

/-- C9 witness: a pre-master secret with 46 random bytes serializes to
exactly 48 bytes. -/
theorem tls_secret_sizes_witness :
    (tls_pre_master_secret_bytes ⟨0x0303, List.replicate 46 0⟩).length =
      sizeof_tls_pre_master_secret :=
  tls_secret_sizes.2.2.2.1 ⟨0x0303, List.replicate 46 0⟩ (by decide)

end Tls
